import Mathlib

/-!
Verification of the multi-source integration core of the abandono-escolar
pipeline (`scripts/processamento/integracao_bases.py`,
`scripts/coleta/censo_escolar.py`, `notebooks/3_analise_exploratoria.py`).

Tables are modelled as lists of rows; a row is its join key together with the
remaining columns.  Machine floats on the rate columns are modelled by `ℚ`
(the computations at stake are exact: means of 0/1 flags, clipping, scaling).
-/

set_option autoImplicit false
set_option maxRecDepth 8192

namespace AbandonoEscolar

/-- A table row: the join key together with the remaining columns. -/
structure Row (α β : Type) where
  key : α
  payload : β
  deriving DecidableEq

/-- Model of `pd.merge(P, S, on=key, how='left')` as the code performs it
(`integracao_bases.py`, all integration levels): every primary row is kept,
rows of `S` with a matching key fan out (one output row per match), and a
primary row with no match gets `none` in the secondary columns. -/
def leftJoin {α β γ : Type} [DecidableEq α]
    (P : List (Row α β)) (S : List (Row α γ)) : List (Row α (β × Option γ)) :=
  P.flatMap fun p =>
    let ms := S.filter fun s => decide (s.key = p.key)
    if ms.isEmpty then [⟨p.key, (p.payload, none)⟩]
    else ms.map fun s => ⟨p.key, (p.payload, some s.payload)⟩

/-- When the secondary table's keys are duplicate-free, a key matches at most
one of its rows. -/
lemma filter_key_length_le_one {α γ : Type} [DecidableEq α]
    (S : List (Row α γ)) (h : (S.map Row.key).Nodup) (k : α) :
    (S.filter fun s => decide (s.key = k)).length ≤ 1 := by
  induction S with
  | nil => simp
  | cons s S ih =>
    simp only [List.map_cons, List.nodup_cons] at h
    by_cases hk : s.key = k
    · have hnone : (S.filter fun s => decide (s.key = k)) = [] := by
        apply List.filter_eq_nil_iff.mpr
        intro a ha
        simp only [decide_eq_true_eq]
        intro hak
        apply h.1
        rw [hk, ← hak]
        exact List.mem_map_of_mem Row.key ha
      simp [List.filter_cons, hk, hnone]
    · simpa [List.filter_cons, hk] using ih h.2

/-- The number of output rows a single primary row contributes to the join. -/
lemma leftJoin_cons {α β γ : Type} [DecidableEq α]
    (p : Row α β) (P : List (Row α β)) (S : List (Row α γ)) :
    leftJoin (p :: P) S =
      (if (S.filter fun s => decide (s.key = p.key)).isEmpty then
        [⟨p.key, (p.payload, none)⟩]
       else (S.filter fun s => decide (s.key = p.key)).map
        fun s => ⟨p.key, (p.payload, some s.payload)⟩) ++ leftJoin P S := by
  simp [leftJoin]

/-- Core counting lemma: a left join against a secondary table with
duplicate-free keys has exactly as many rows as the primary table. -/
theorem leftJoin_length_of_nodup {α β γ : Type} [DecidableEq α]
    (P : List (Row α β)) (S : List (Row α γ)) (h : (S.map Row.key).Nodup) :
    (leftJoin P S).length = P.length := by
  induction P with
  | nil => rfl
  | cons p P ih =>
    rw [leftJoin_cons, List.length_append, ih]
    have hle := filter_key_length_le_one S h p.key
    rcases hms : S.filter fun s => decide (s.key = p.key) with _ | ⟨m, ms⟩
    · simp [hms]
      omega
    · rw [hms] at hle
      simp only [List.length_cons] at hle
      have : ms = [] := List.length_eq_zero.mp (by omega)
      subst this
      simp [hms]
      omega

/-- Model of `integrar_dados_nivel_escola`, steps 3–4 (and, with other sources, the
indicator loop of steps 5 and the municipality-level merges): when the
secondary table is available the primary table is left-merged with it on the
shared key; when the loader signalled not-found (`None`) the primary table
goes through unchanged, carrying no secondary columns.  Secondary columns are
`Option`-valued: `none` stands for absent / NaN. -/
def integrar_nivel {α β γ : Type} [DecidableEq α]
    (primaria : List (Row α β)) (secundaria : Option (List (Row α γ))) :
    List (Row α (β × Option γ)) :=
  match secundaria with
  | some s => leftJoin primaria s
  | none => primaria.map fun p => ⟨p.key, (p.payload, none)⟩

/-- The primary-table columns of an integrated row. -/
def parte_primaria {α β γ : Type} (r : Row α (β × Option γ)) : Row α β :=
  ⟨r.key, r.payload.1⟩

/-- Under duplicate-free secondary keys, the join keeps each primary row's
key and primary columns exactly once, in order. -/
lemma leftJoin_parte_primaria_of_nodup {α β γ : Type} [DecidableEq α]
    (P : List (Row α β)) (S : List (Row α γ)) (h : (S.map Row.key).Nodup) :
    (leftJoin P S).map parte_primaria = P := by
  induction P with
  | nil => rfl
  | cons p P ih =>
    rw [leftJoin_cons, List.map_append, ih]
    have hle := filter_key_length_le_one S h p.key
    rcases hms : S.filter fun s => decide (s.key = p.key) with _ | ⟨m, ms⟩
    · simp [hms, parte_primaria]
    · rw [hms] at hle
      simp only [List.length_cons] at hle
      have : ms = [] := List.length_eq_zero.mp (by omega)
      subst this
      simp [hms, parte_primaria]

/-- Skipping the secondary source leaves the primary columns untouched. -/
lemma integrar_nivel_none_parte_primaria {α β γ : Type} [DecidableEq α]
    (P : List (Row α β)) :
    (integrar_nivel (γ := γ) P none).map parte_primaria = P := by
  induction P with
  | nil => rfl
  | cons p P ih =>
    simpa [integrar_nivel, parte_primaria] using ih

/-- C1.  Every left merge the Integrator performs — school level
(`integrar_dados_nivel_escola`, SAEB and indicator joins on `CO_ENTIDADE`)
and municipality level (`integrar_dados_nivel_municipio`, socioeconomic and
indicator joins on `CO_MUNICIPIO`) — preserves the primary table's row count
exactly whenever the secondary table's key values are unique: no primary row
is duplicated and none is lost. -/
theorem integrador_preserva_linhas_primarias {α β γ : Type} [DecidableEq α]
    (P : List (Row α β)) (S : List (Row α γ)) (h : (S.map Row.key).Nodup) :
    (leftJoin P S).length = P.length ∧
      (integrar_nivel P (some S)).length = P.length :=
  ⟨leftJoin_length_of_nodup P S h, leftJoin_length_of_nodup P S h⟩

/-- Witness for C1 at a concrete pair of tables with a unique secondary key. -/
theorem integrador_preserva_linhas_primarias_witness :
    (leftJoin [(⟨1, 10⟩ : Row Nat Nat), ⟨2, 20⟩] [(⟨1, 5⟩ : Row Nat Nat)]).length = 2 ∧
      (integrar_nivel [(⟨1, 10⟩ : Row Nat Nat), ⟨2, 20⟩]
        (some [(⟨1, 5⟩ : Row Nat Nat)])).length = 2 :=
  integrador_preserva_linhas_primarias [⟨1, 10⟩, ⟨2, 20⟩] [⟨1, 5⟩] (by decide)

/-- Counterexample for C2.  On a secondary table with two rows sharing key 0
and differing values (1 and 2), and no deduplication anywhere in the code,
the Integrator does not reject the join: it executes the merge, fanning the
single primary row out into two output rows, one per conflicting secondary
row.  No `AmbiguousJoinError` exists anywhere in the repository. -/
theorem merge_ambiguo_executado_cex :
    integrar_nivel [(⟨0, 10⟩ : Row Nat Nat)] (some [(⟨0, 1⟩ : Row Nat Nat), ⟨0, 2⟩]) =
        [⟨0, (10, some 1)⟩, ⟨0, (10, some 2)⟩] ∧
      (integrar_nivel [(⟨0, 10⟩ : Row Nat Nat)]
        (some [(⟨0, 1⟩ : Row Nat Nat), ⟨0, 2⟩])).length ≠ 1 := by
  decide

/-- C2 amended.  The Integrator performs no many-to-one validation and raises
nothing: the left merge is executed unconditionally, and its row count is the
sum over primary rows of the number of matching secondary rows (counting 1
for an unmatched primary row) — duplicate secondary keys silently multiply
primary rows. -/
theorem leftJoin_comprimento_fanout {α β γ : Type} [DecidableEq α]
    (P : List (Row α β)) (S : List (Row α γ)) :
    (leftJoin P S).length =
      (P.map fun p => max ((S.filter fun s => decide (s.key = p.key)).length) 1).sum := by
  induction P with
  | nil => rfl
  | cons p P ih =>
    rw [leftJoin_cons, List.length_append, ih, List.map_cons, List.sum_cons]
    rcases hms : S.filter fun s => decide (s.key = p.key) with _ | ⟨m, ms⟩
    · simp [hms]
    · simp only [hms, List.isEmpty_cons, Bool.false_eq_true, if_false, List.length_map,
        List.length_cons]
      omega

/-- Counterexample for C8.  With a duplicate-keyed optional secondary source,
integrating with the source present does not match integrating with it
absent: the present case multiplies the primary row, so the row counts
differ. -/
theorem fonte_ausente_contagem_difere_cex :
    (integrar_nivel [(⟨7, 3⟩ : Row Nat Nat)]
        (some [(⟨7, 4⟩ : Row Nat Nat), ⟨7, 5⟩])).length ≠
      (integrar_nivel (γ := Nat) [(⟨7, 3⟩ : Row Nat Nat)] none).length := by
  decide

/-- C8 amended.  Provided the optional secondary source's key values are
unique, integrating with that source absent yields the same row count and the
same primary columns (key and primary payload, in order) as integrating with
it present; only the attached secondary columns differ. -/
theorem tolerancia_fonte_ausente {α β γ : Type} [DecidableEq α]
    (P : List (Row α β)) (S : List (Row α γ)) (h : (S.map Row.key).Nodup) :
    (integrar_nivel P (some S)).length = (integrar_nivel (γ := γ) P none).length ∧
      (integrar_nivel P (some S)).map parte_primaria =
        (integrar_nivel (γ := γ) P none).map parte_primaria := by
  constructor
  · show (leftJoin P S).length = _
    rw [leftJoin_length_of_nodup P S h]
    simp [integrar_nivel]
  · show (leftJoin P S).map parte_primaria = _
    rw [leftJoin_parte_primaria_of_nodup P S h, integrar_nivel_none_parte_primaria]

/-- Witness for C8 at a concrete pair of tables with a unique secondary key. -/
theorem tolerancia_fonte_ausente_witness :
    (integrar_nivel [(⟨3, 30⟩ : Row Nat Nat)] (some [(⟨3, 7⟩ : Row Nat Nat)])).length =
        (integrar_nivel (γ := Nat) [(⟨3, 30⟩ : Row Nat Nat)] none).length ∧
      (integrar_nivel [(⟨3, 30⟩ : Row Nat Nat)]
          (some [(⟨3, 7⟩ : Row Nat Nat)])).map parte_primaria =
        (integrar_nivel (γ := Nat) [(⟨3, 30⟩ : Row Nat Nat)] none).map parte_primaria :=
  tolerancia_fonte_ausente [⟨3, 30⟩] [⟨3, 7⟩] (by decide)

/-! ### Aggregation of the 0/1 dropout flag (censo_escolar.py and notebook 3) -/

/-- One student record projected to (school key, `ABANDONO` 0/1 flag). -/
abbrev Registro := Nat × ℚ

/-- The records of one `groupby` group, in input order. -/
def grupo (rs : List Registro) (k : Nat) : List Registro :=
  rs.filter fun r => decide (r.1 = k)

/-- Model of the groupby reduction (mean of the 0/1 `ABANDONO` flag
within the group (renamed `TAXA_ABANDONO` by both aggregation sites). -/
def taxa_abandono_media (rs : List Registro) (k : Nat) : ℚ :=
  ((grupo rs k).map Prod.snd).sum / ((grupo rs k).length : ℚ)

/-- The aggregated school table: one row per distinct key, carrying the raw
group mean of the flag.  This is the whole of the rate computation in
`processar_censo_escolar` (censo_escolar.py): no percentage conversion is
applied there. -/
def agregado_escola_censo (rs : List Registro) : List (Nat × ℚ) :=
  ((rs.map Prod.fst).dedup).map fun k => (k, taxa_abandono_media rs k)

/-- Notebook 3 §5.1's extra step
`df_escola['TAXA_ABANDONO'] = df_escola['TAXA_ABANDONO'] * 100`. -/
def para_percentual (t : List (Nat × ℚ)) : List (Nat × ℚ) :=
  t.map fun r => (r.1, r.2 * 100)

/-- Notebook 3 §5.1's full school aggregation: group mean, then ×100. -/
def agregado_escola_notebook (rs : List Registro) : List (Nat × ℚ) :=
  para_percentual (agregado_escola_censo rs)

/-- The spec's scenario: school 1 has 10 students with 2 dropouts, school 2
has 5 students with 0 dropouts, school 3 has 8 students with 4 dropouts. -/
def cenario_escolas : List Registro :=
  List.replicate 2 (1, (1 : ℚ)) ++ List.replicate 8 (1, 0) ++
    List.replicate 5 (2, 0) ++
    List.replicate 4 (3, 1) ++ List.replicate 4 (3, 0)

/-- Counterexample for C3.  The school aggregation of
`processar_censo_escolar` (censo_escolar.py, the pipeline's aggregator whose
output the Integrator loads) stops at the raw group mean: on the spec's
scenario, school 1's `TAXA_ABANDONO` is 1/5, not the claimed 20.0 — the ×100
conversion is not applied at that aggregation site. -/
theorem taxa_sem_percentual_cex :
    agregado_escola_censo cenario_escolas = [(1, 1 / 5), (2, 0), (3, 1 / 2)] ∧
      (1 : ℚ) / 5 ≠ 20 := by
  constructor
  · norm_num [agregado_escola_censo, taxa_abandono_media, grupo, cenario_escolas,
      List.replicate]
  · norm_num

/-- C3 amended.  The group rate is the mean of the 0/1 flag; notebook 3 §5.1
then multiplies it by 100 in a separate column step, yielding 20.0 / 0.0 /
50.0 on the spec's scenario, while censo_escolar.py's school aggregation
leaves the raw mean (0.2 / 0.0 / 0.5), performing no ×100 conversion. -/
theorem taxa_media_vezes_cem :
    agregado_escola_notebook cenario_escolas = [(1, 20), (2, 0), (3, 50)] ∧
      agregado_escola_censo cenario_escolas = [(1, 1 / 5), (2, 0), (3, 1 / 2)] := by
  constructor
  · norm_num [agregado_escola_notebook, para_percentual, agregado_escola_censo,
      taxa_abandono_media, grupo, cenario_escolas, List.replicate]
  · norm_num [agregado_escola_censo, taxa_abandono_media, grupo, cenario_escolas,
      List.replicate]

/-! ### Consistency check on the integrated rates (notebook 3 §6.2) -/

/-- `clip(0, 100)` on one rate value. -/
def limitar (t : ℚ) : ℚ := min (max t 0) 100

/-- Notebook 3 §6.2: count the rates outside [0,100]; if any exist, warn with
the count and clip the whole column into range. -/
def verificar_consistencia (taxas : List ℚ) : Nat × List ℚ :=
  let invalidas := (taxas.filter fun t => decide (t < 0) || decide (100 < t)).length
  (invalidas, if 0 < invalidas then taxas.map limitar else taxas)

lemma limitar_nonneg (t : ℚ) : 0 ≤ limitar t :=
  le_min (le_max_right t 0) (by norm_num)

lemma limitar_le (t : ℚ) : limitar t ≤ 100 := min_le_right _ _

lemma limitar_eq_self (t : ℚ) (h0 : 0 ≤ t) (h100 : t ≤ 100) : limitar t = t := by
  rw [limitar, max_eq_left h0, min_eq_left h100]

/-- A row is altered by the clip exactly when it was out of range. -/
lemma limitar_ne_iff (t : ℚ) : t ≠ limitar t ↔ (t < 0 ∨ 100 < t) := by
  constructor
  · intro hne
    by_contra hc
    push_neg at hc
    exact hne (limitar_eq_self t hc.1 hc.2).symm
  · rintro (h | h)
    · rw [limitar, max_eq_right (le_of_lt h), min_eq_left (by norm_num)]
      exact ne_of_lt h
    · rw [limitar, max_eq_left (by linarith), min_eq_right (le_of_lt h)]
      exact (ne_of_lt h).symm

/-- The rows altered by the clip are exactly the out-of-range rows. -/
lemma zip_limitar_count (l : List ℚ) :
    ((l.zip (l.map limitar)).filter fun p => decide (p.1 ≠ p.2)).length =
      (l.filter fun t => decide (t < 0) || decide (100 < t)).length := by
  induction l with
  | nil => rfl
  | cons t l ih =>
    rw [List.map_cons, List.zip_cons_cons, List.filter_cons, List.filter_cons]
    by_cases h : t < 0 ∨ 100 < t
    · have h1 : decide (((t, limitar t) : ℚ × ℚ).1 ≠ (t, limitar t).2) = true :=
        decide_eq_true ((limitar_ne_iff t).mpr h)
      have h2 : (decide (t < 0) || decide (100 < t)) = true := by
        rcases h with h | h
        · rw [decide_eq_true h, Bool.true_or]
        · rw [decide_eq_true h, Bool.or_true]
      rw [h1, h2, if_pos rfl, if_pos rfl, List.length_cons, List.length_cons, ih]
    · push_neg at h
      have heq : limitar t = t := limitar_eq_self t h.1 h.2
      have h1 : decide (((t, limitar t) : ℚ × ℚ).1 ≠ (t, limitar t).2) = false := by
        simp only [decide_eq_false_iff_not, ne_eq, not_not]
        exact heq.symm
      have h2 : (decide (t < 0) || decide (100 < t)) = false := by
        simp only [Bool.or_eq_false_iff, decide_eq_false_iff_not, not_lt]
        exact ⟨h.1, h.2⟩
      rw [h1, h2, if_neg, if_neg, ih]
      · exact fun hc => Bool.false_ne_true hc
      · exact fun hc => Bool.false_ne_true hc

/-- C4.  After the notebook 3 §6.2 consistency check runs, every rate in the
output column lies in [0,100]; and the number it counts and reports in the
warning is exactly the number of rows the clip actually alters — out-of-range
rates are never silently swallowed. -/
theorem consistencia_limita_taxas (taxas : List ℚ) (t : ℚ)
    (ht : t ∈ (verificar_consistencia taxas).2) :
    (0 ≤ t ∧ t ≤ 100) ∧
      (verificar_consistencia taxas).1 =
        ((taxas.zip (verificar_consistencia taxas).2).filter
          fun p => decide (p.1 ≠ p.2)).length := by
  by_cases hinv : 0 < (taxas.filter fun t => decide (t < 0) || decide (100 < t)).length
  · have hsnd : (verificar_consistencia taxas).2 = taxas.map limitar := by
      simp [verificar_consistencia, hinv]
    refine ⟨?_, ?_⟩
    · rw [hsnd] at ht
      rcases List.mem_map.mp ht with ⟨x, _, hx⟩
      exact hx ▸ ⟨limitar_nonneg x, limitar_le x⟩
    · rw [hsnd, zip_limitar_count]
      simp [verificar_consistencia]
  · have hzero : (taxas.filter fun t => decide (t < 0) || decide (100 < t)).length = 0 := by
      omega
    have hsnd : (verificar_consistencia taxas).2 = taxas := by
      simp [verificar_consistencia, hzero]
    refine ⟨?_, ?_⟩
    · rw [hsnd] at ht
      have hnot : ¬(t < 0 ∨ 100 < t) := by
        intro hc
        have : t ∈ taxas.filter fun t => decide (t < 0) || decide (100 < t) := by
          refine List.mem_filter.mpr ⟨ht, ?_⟩
          rcases hc with h | h <;> simp [h]
        rw [List.eq_nil_of_length_eq_zero hzero] at this
        exact absurd this (List.not_mem_nil t)
      push_neg at hnot
      exact ⟨hnot.1, hnot.2⟩
    · have hzip : ∀ l : List ℚ, ((l.zip l).filter fun p => decide (p.1 ≠ p.2)) = [] := by
        intro l
        induction l with
        | nil => rfl
        | cons x l ih =>
          have h1 : decide (((x, x) : ℚ × ℚ).1 ≠ (x, x).2) = false := by
            simp
          rw [List.zip_cons_cons, List.filter_cons, h1, if_neg]
          · exact ih
          · exact fun hc => Bool.false_ne_true hc
      rw [hsnd, hzip taxas]
      simp [verificar_consistencia, hzero]

/-- Witness for C4 at the concrete rate column [-5, 50, 150]. -/
theorem consistencia_limita_taxas_witness :
    ((0 : ℚ) ≤ 0 ∧ (0 : ℚ) ≤ 100) ∧
      (verificar_consistencia [(-5 : ℚ), 50, 150]).1 =
        ((([(-5 : ℚ), 50, 150]).zip (verificar_consistencia [(-5 : ℚ), 50, 150]).2).filter
          fun p => decide (p.1 ≠ p.2)).length :=
  consistencia_limita_taxas [(-5 : ℚ), 50, 150] 0
    (by norm_num [verificar_consistencia, limitar, List.filter_cons])

/-! ### Value normalization (`normalizar_variaveis`, integracao_bases.py) -/

/-- The value-normalization step
`df_norm[coluna] = df_norm[coluna].map(valores).fillna(df_norm[coluna])`:
a value in the mapping's domain is replaced by its canonical label; any other
value passes through unchanged (never nulled). -/
def normalizar_valores {α : Type} (valores : α → Option α) (xs : List α) : List α :=
  xs.map fun x => (valores x).getD x

/-- C5.  When no canonical label is itself in the mapping's domain, the value
normalization is idempotent: a second pass maps every already-normalized
value to itself. -/
theorem normalizar_idempotente {α : Type} (valores : α → Option α) (xs : List α)
    (h : ∀ c l, valores c = some l → valores l = none) :
    normalizar_valores valores (normalizar_valores valores xs) =
      normalizar_valores valores xs := by
  simp only [normalizar_valores, List.map_map]
  refine List.map_congr_left fun x _ => ?_
  simp only [Function.comp_apply]
  rcases hx : valores x with _ | l
  · simp [hx]
  · simp [hx, h x l hx]

/-- The `TP_DEPENDENCIA` value mapping of `integrar_dados_nivel_escola`
(codes as strings for a uniform column type). -/
def mapa_dependencia (x : String) : Option String :=
  if x = "1" then some "Federal"
  else if x = "2" then some "Estadual"
  else if x = "3" then some "Municipal"
  else if x = "4" then some "Privada"
  else none

/-- Witness for C5: the dependency-code mapping, whose labels are outside its
domain, applied twice to a column holding mapped codes, an unknown code and
an already-canonical label. -/
theorem normalizar_idempotente_witness :
    normalizar_valores mapa_dependencia
        (normalizar_valores mapa_dependencia ["1", "3", "9", "Federal"]) =
      normalizar_valores mapa_dependencia ["1", "3", "9", "Federal"] :=
  normalizar_idempotente mapa_dependencia ["1", "3", "9", "Federal"]
    (by
      intro c l hc
      unfold mapa_dependencia at hc
      split_ifs at hc with h1 h2 h3 h4
      · injection hc with hl; subst hl; decide
      · injection hc with hl; subst hl; decide
      · injection hc with hl; subst hl; decide
      · injection hc with hl; subst hl; decide)

/-! ### Expected age and age-grade distortion (integracao_bases.py, aluno) -/

/-- Function `idade_esperada` from `integrar_dados_nivel_aluno`: expected age for an
education-stage code, with 16 as the default outside the known bands. -/
def idade_esperada (etapa : Int) : Int :=
  if etapa ∈ ([25, 26, 30, 31, 35, 36] : List Int) then 15
  else if etapa ∈ ([27, 28, 32, 37] : List Int) then 16
  else if etapa ∈ ([29, 33, 38] : List Int) then 17
  else 16

/-- C6.  `idade_esperada` is a step function with exactly the three grade
bands of the code — 1st-year codes ↦ 15, 2nd-year codes ↦ 16, 3rd-year codes
↦ 17 — and every stage code outside those bands maps to the default 16. -/
theorem idade_esperada_bandas :
    (∀ e ∈ ([25, 26, 30, 31, 35, 36] : List Int), idade_esperada e = 15) ∧
      (∀ e ∈ ([27, 28, 32, 37] : List Int), idade_esperada e = 16) ∧
      (∀ e ∈ ([29, 33, 38] : List Int), idade_esperada e = 17) ∧
      (∀ e : Int, e ∉ ([25, 26, 30, 31, 35, 36] : List Int) →
        e ∉ ([27, 28, 32, 37] : List Int) → e ∉ ([29, 33, 38] : List Int) →
        idade_esperada e = 16) := by
  refine ⟨by decide, by decide, by decide, ?_⟩
  intro e h1 h2 h3
  rw [idade_esperada, if_neg h1, if_neg h2, if_neg h3]

/-- Witness for C6: one code from each band and one code outside them all. -/
theorem idade_esperada_bandas_witness :
    idade_esperada 26 = 15 ∧ idade_esperada 28 = 16 ∧ idade_esperada 33 = 17 ∧
      idade_esperada 99 = 16 :=
  ⟨idade_esperada_bandas.1 26 (by decide),
    idade_esperada_bandas.2.1 28 (by decide),
    idade_esperada_bandas.2.2.1 33 (by decide),
    idade_esperada_bandas.2.2.2 99 (by decide) (by decide) (by decide)⟩

/-- Column `DISTORCAO_IDADE_SERIE` in `integrar_dados_nivel_aluno`: the age
difference `NU_IDADE - IDADE_ESPERADA` followed by `.clip(lower=0)`. -/
def distorcao_idade_serie (idade etapa : Int) : Int :=
  max (idade - idade_esperada etapa) 0

/-- Function `calcular_distorcao` from notebook 3 §4.1:
`max(0, idade - idade_esperada)` computed in one expression. -/
def calcular_distorcao (idade etapa : Int) : Int :=
  max 0 (idade - idade_esperada etapa)

/-- C7.  The derived distortion equals `max(0, actual age − expected age)`,
is never negative, and the two implementations (clip in integracao_bases.py,
`max` in notebook 3) agree. -/
theorem distorcao_nao_negativa (idade etapa : Int) :
    distorcao_idade_serie idade etapa = max 0 (idade - idade_esperada etapa) ∧
      0 ≤ distorcao_idade_serie idade etapa ∧
      distorcao_idade_serie idade etapa = calcular_distorcao idade etapa := by
  unfold distorcao_idade_serie calcular_distorcao
  exact ⟨max_comm _ _, le_max_right _ _, max_comm _ _⟩

/-! ### Missing-value pass (notebook 3 §6.1), one numeric column -/

/-- Per-column null count (`df[col].isnull().sum()`). -/
def contagem_ausentes (col : List (Option ℚ)) : Nat :=
  (col.filter fun v => v.isNone).length

/-- Column mean `df[col].mean()`: pandas skips nulls; the mean of an all-null column is
itself null. -/
def media_coluna (col : List (Option ℚ)) : Option ℚ :=
  let xs := col.filterMap id
  if xs.length = 0 then none else some (xs.sum / (xs.length : ℚ))

/-- Imputation `df[col].fillna(df[col].mean())`: nulls take the original column's mean
(and stay null when that mean is itself null). -/
def imputar_media (col : List (Option ℚ)) : List (Option ℚ) :=
  col.map fun v => v.orElse fun _ => media_coluna col

/-- Notebook 3 §6.1 on one numeric column: report the null count and
percentage, and — in the same run, whenever anything is missing — fill the
nulls with the column mean.  (`.round(2)` display rounding of the percentage
is omitted.) -/
def verificar_ausentes (col : List (Option ℚ)) : (Nat × ℚ) × List (Option ℚ) :=
  let cnt := contagem_ausentes col
  ((cnt, (cnt : ℚ) / (col.length : ℚ) * 100),
    if 0 < cnt then imputar_media col else col)

/-- Counterexample for C9.  On the column [1, null, 3] the checking run does
not leave the dataset alone: it returns the column with the null replaced by
the column mean 2 — imputation happens automatically inside the same pass,
not as a separately invoked step. -/
theorem ausentes_imputa_automaticamente_cex :
    (verificar_ausentes [some 1, none, some 3]).2 = [some 1, some 2, some 3] ∧
      ([some (1 : ℚ), some 2, some 3] : List (Option ℚ)) ≠ [some 1, none, some 3] := by
  have hm : media_coluna [some (1 : ℚ), none, some 3] = some 2 := by
    rw [media_coluna]
    norm_num [List.filterMap_cons, id]
  constructor
  · simp [verificar_ausentes, contagem_ausentes, imputar_media, hm,
      List.filter_cons, Option.orElse]
  · simp

/-- Null count and non-null count partition the column. -/
lemma contagem_ausentes_add_somes (col : List (Option ℚ)) :
    contagem_ausentes col + (col.filterMap id).length = col.length := by
  induction col with
  | nil => rfl
  | cons v col ih =>
    rcases v with _ | x
    · simp only [contagem_ausentes, List.length_cons] at ih ⊢
      simp [List.filter_cons, List.filterMap_cons]
      omega
    · simp only [contagem_ausentes, List.length_cons] at ih ⊢
      simp [List.filter_cons, List.filterMap_cons]
      omega

/-- Filling every null with one definite value leaves no null. -/
lemma contagem_map_orElse (l : List (Option ℚ)) (m : ℚ) :
    contagem_ausentes (l.map fun v => v.orElse fun _ => some m) = 0 := by
  induction l with
  | nil => rfl
  | cons v l ih =>
    rcases v with _ | x
    · simpa [contagem_ausentes, List.filter_cons, Option.orElse] using ih
    · simpa [contagem_ausentes, List.filter_cons, Option.orElse] using ih

/-- Filling with a definite value removes every null. -/
lemma contagem_imputar_eq_zero (col : List (Option ℚ)) (m : ℚ)
    (hm : media_coluna col = some m) :
    contagem_ausentes (imputar_media col) = 0 := by
  unfold imputar_media
  rw [hm]
  exact contagem_map_orElse col m

/-- C9 amended.  The §6.1 pass reports and then, whenever any value is
missing, automatically imputes in the same run: the dataset is returned
unmutated exactly when nothing was missing; when something is missing the
mean imputation is applied (and, as long as at least one value is present,
it leaves no null behind).  Row count is always preserved. -/
theorem ausentes_reporta_e_imputa (col : List (Option ℚ)) :
    (verificar_ausentes col).2.length = col.length ∧
      (contagem_ausentes col = 0 → (verificar_ausentes col).2 = col) ∧
      (0 < contagem_ausentes col → (verificar_ausentes col).2 = imputar_media col) ∧
      (0 < contagem_ausentes col → contagem_ausentes col < col.length →
        contagem_ausentes (verificar_ausentes col).2 = 0) := by
  refine ⟨?_, ?_, ?_, ?_⟩
  · by_cases h : 0 < contagem_ausentes col
    · simp [verificar_ausentes, h, imputar_media]
    · simp [verificar_ausentes, h]
  · intro h
    simp [verificar_ausentes, h]
  · intro h
    simp [verificar_ausentes, h]
  · intro h hlt
    have hsomes : (col.filterMap id).length ≠ 0 := by
      have := contagem_ausentes_add_somes col
      omega
    have hm : media_coluna col = some ((col.filterMap id).sum / ((col.filterMap id).length : ℚ)) := by
      rw [media_coluna, if_neg hsomes]
    have hsnd : (verificar_ausentes col).2 = imputar_media col := by
      simp [verificar_ausentes, h]
    rw [hsnd]
    exact contagem_imputar_eq_zero col _ hm

/-- Witness for C9's amended claim at the column [1, null, 3]. -/
theorem ausentes_reporta_e_imputa_witness :
    (verificar_ausentes [some 1, none, some 3]).2.length =
        ([some (1 : ℚ), none, some 3] : List (Option ℚ)).length ∧
      contagem_ausentes (verificar_ausentes [some (1 : ℚ), none, some 3]).2 = 0 :=
  ⟨(ausentes_reporta_e_imputa [some 1, none, some 3]).1,
    (ausentes_reporta_e_imputa [some 1, none, some 3]).2.2.2 (by decide) (by decide)⟩

/-! ### Simulated socioeconomic source (integracao_bases.py) -/

/-- The five simulated socioeconomic columns, in the order the code builds
them: PIB per capita, unemployment rate, IDEB, poverty rate, Gini index. -/
abbrev ValoresSocio := ℚ × ℚ × ℚ × ℚ × ℚ

/-- Loader `carregar_dados_socioeconomicos`: with the file present its table is
returned and nothing is written; with the file absent the function does not
report the source unavailable — it draws 500 simulated municipality rows
(`np.random`, modelled by the `sorteio` parameter giving row `i` its random
key and column values), writes the table to the expected file path (the
second component of the result), and returns it. -/
def carregar_dados_socioeconomicos
    (arquivo : Option (List (Row Nat ValoresSocio)))
    (sorteio : Nat → Row Nat ValoresSocio) :
    List (Row Nat ValoresSocio) × Option (List (Row Nat ValoresSocio)) :=
  match arquivo with
  | some df => (df, none)
  | none =>
      let df := (List.range 500).map sorteio
      (df, some df)

/-- Model of `integrar_dados_nivel_municipio`, step 3: the censo municipality table is
left-merged on `CO_MUNICIPIO` with whatever the socioeconomic loader
returned; since the loader never reports unavailability, the merge branch is
always taken. -/
def integrar_municipio_socio {β : Type}
    (censo : List (Row Nat β))
    (arquivo : Option (List (Row Nat ValoresSocio)))
    (sorteio : Nat → Row Nat ValoresSocio) :
    List (Row Nat (β × Option ValoresSocio)) :=
  leftJoin censo (carregar_dados_socioeconomicos arquivo sorteio).1

/-- C10.  When the socioeconomic file is absent the loader returns a freshly
generated 500-row simulated table instead of signalling not-found, persists
exactly that table to the expected path, its content depends on the random
draw (two draws can disagree), and the municipality integration left-joins
the fabricated rows onto the censo table: a censo municipality whose code was
drawn receives simulated column values, not nulls. -/
theorem socio_simulado_quando_ausente (sorteio : Nat → Row Nat ValoresSocio)
    (q : ℚ) (r : Row Nat (ℚ × Option ValoresSocio))
    (hr : r ∈ integrar_municipio_socio [⟨(sorteio 0).key, q⟩] none sorteio) :
    (carregar_dados_socioeconomicos none sorteio).1.length = 500 ∧
      (carregar_dados_socioeconomicos none sorteio).2 =
        some (carregar_dados_socioeconomicos none sorteio).1 ∧
      (∃ s₁ s₂ : Nat → Row Nat ValoresSocio,
        (carregar_dados_socioeconomicos none s₁).1 ≠
          (carregar_dados_socioeconomicos none s₂).1) ∧
      r.payload.2 ≠ none := by
  refine ⟨?_, ?_, ?_, ?_⟩
  · simp only [carregar_dados_socioeconomicos]
    rw [List.length_map, List.length_range]
  · simp only [carregar_dados_socioeconomicos]
  · refine ⟨fun _ => ⟨0, (0, 0, 0, 0, 0)⟩, fun _ => ⟨1, (0, 0, 0, 0, 0)⟩, ?_⟩
    intro hc
    simp only [carregar_dados_socioeconomicos, List.map_const', List.length_range] at hc
    have hmem : (⟨0, (0, 0, 0, 0, 0)⟩ : Row Nat ValoresSocio) ∈
        List.replicate 500 (⟨0, (0, 0, 0, 0, 0)⟩ : Row Nat ValoresSocio) :=
      List.mem_replicate.mpr ⟨by norm_num, rfl⟩
    rw [hc] at hmem
    exact absurd (congrArg Row.key (List.mem_replicate.mp hmem).2) (by norm_num)
  · simp only [integrar_municipio_socio, carregar_dados_socioeconomicos] at hr
    rw [leftJoin_cons] at hr
    have hmem : sorteio 0 ∈ ((List.range 500).map sorteio).filter
        fun s => decide (s.key = (sorteio 0).key) := by
      refine List.mem_filter.mpr ⟨?_, decide_eq_true rfl⟩
      exact List.mem_map.mpr ⟨0, List.mem_range.mpr (by norm_num), rfl⟩
    have hne : (((List.range 500).map sorteio).filter
        fun s => decide (s.key = (sorteio 0).key)) ≠ [] :=
      List.ne_nil_of_mem hmem
    rw [if_neg (by simpa using hne),
      show leftJoin ([] : List (Row Nat ℚ)) ((List.range 500).map sorteio) = [] from rfl,
      List.append_nil] at hr
    rcases List.mem_map.mp hr with ⟨s, _, hs⟩
    rw [← hs]
    simp

/-- A deterministic stand-in draw for the witness: row `i` gets key `i` and
zero columns. -/
def sorteio_teste (i : Nat) : Row Nat ValoresSocio := ⟨i, (0, 0, 0, 0, 0)⟩

/-- Witness for C10: the loader's simulated table and the join of a censo row
whose municipality code 0 was drawn. -/
theorem socio_simulado_quando_ausente_witness :
    (carregar_dados_socioeconomicos none sorteio_teste).1.length = 500 ∧
      (carregar_dados_socioeconomicos none sorteio_teste).2 =
        some (carregar_dados_socioeconomicos none sorteio_teste).1 ∧
      (∃ s₁ s₂ : Nat → Row Nat ValoresSocio,
        (carregar_dados_socioeconomicos none s₁).1 ≠
          (carregar_dados_socioeconomicos none s₂).1) ∧
      (⟨0, ((7 : ℚ), some ((0 : ℚ), 0, 0, 0, 0))⟩ :
          Row Nat (ℚ × Option ValoresSocio)).payload.2 ≠ none :=
  socio_simulado_quando_ausente sorteio_teste 7 ⟨0, (7, some (0, 0, 0, 0, 0))⟩
    (by
      simp only [integrar_municipio_socio, carregar_dados_socioeconomicos]
      rw [leftJoin_cons]
      have hmem : sorteio_teste 0 ∈ ((List.range 500).map sorteio_teste).filter
          fun s => decide (s.key = (sorteio_teste 0).key) := by
        refine List.mem_filter.mpr ⟨?_, decide_eq_true rfl⟩
        exact List.mem_map.mpr ⟨0, List.mem_range.mpr (by norm_num), rfl⟩
      have hne : (((List.range 500).map sorteio_teste).filter
          fun s => decide (s.key = (sorteio_teste 0).key)) ≠ [] :=
        List.ne_nil_of_mem hmem
      rw [if_neg (by simpa using hne),
        show leftJoin ([] : List (Row Nat ℚ)) ((List.range 500).map sorteio_teste) = []
          from rfl,
        List.append_nil]
      exact List.mem_map.mpr ⟨sorteio_teste 0, hmem, rfl⟩)

end AbandonoEscolar
